import Mathlib

/-!
Shallow embedding of the agentsmith LLM gateway core (Rust) in Lean 4:
the vendor-neutral prompt model (`src/agentsmith-agent/src/llm/prompt.rs`),
the per-vendor request lowerings and response normalizers
(`openai_llm.rs`, `anthropic_llm.rs`, `gcp_gemini_llm.rs`, `llm.rs`),
and the provider factory (`llm_factory.rs`).

Conventions of the embedding:
* Rust functions that can panic (`unwrap`, out-of-bounds indexing) are
  embedded as `Option`-returning functions where `none` models a panic.
* `serde_json::Value` is modelled by `JValue`; `serde_json::from_str` is
  modelled by a small executable JSON parser (`parseJson`).  Machine floats
  (`f32`/`f64` sampling parameters) are modelled by `Rat`; no claim touches
  float arithmetic, the fields are only copied around.
* The shared HTTP client and the outbound transport are outside the model:
  a `generate` implementation is split at the transport boundary into the
  pure request-building phase and the pure response-normalization phase.
-/

set_option maxRecDepth 4000

/-! ## JSON values (model of `serde_json::Value`) -/

inductive JValue where
  | null : JValue
  | bool (b : Bool) : JValue
  | num (n : Int) : JValue
  | str (s : String) : JValue
  | arr (items : List JValue) : JValue
  | obj (fields : List (String × JValue)) : JValue
  deriving Repr

/-- Model of `serde_json::Value::get(key)`: field lookup on an object,
`None` on every other variant. -/
def JValue.getField : JValue → String → Option JValue
  | .obj fields, key => fields.lookup key
  | _, _ => none

/-- Model of `serde_json::Value::as_str`: the payload of a JSON string,
`None` on every other variant. -/
def JValue.asStr : JValue → Option String
  | .str s => some s
  | _ => none

/-! ## A small executable JSON parser (model of `serde_json::from_str`)

Fuel-based recursive descent.  It accepts JSON objects, arrays, strings
(with the common escapes), integer numbers, `true`, `false` and `null`;
claims never depend on the precise accepted language, only on whether a
given concrete argument string parses. -/

def quoteChar : Char := Char.ofNat 34

def backslashChar : Char := Char.ofNat 92

def lbraceChar : Char := Char.ofNat 123

def rbraceChar : Char := Char.ofNat 125

def slashChar : Char := Char.ofNat 47

def isJsonWs (c : Char) : Bool :=
  c = ' ' || c = '\t' || c = '\n' || c = '\r'

def skipWs : List Char → List Char
  | [] => []
  | c :: cs => if isJsonWs c then skipWs cs else c :: cs

def hexVal (c : Char) : Option Nat :=
  if '0' ≤ c ∧ c ≤ '9' then some (c.toNat - 48)
  else if 'a' ≤ c ∧ c ≤ 'f' then some (c.toNat - 87)
  else if 'A' ≤ c ∧ c ≤ 'F' then some (c.toNat - 55)
  else none

def parseStringBody : Nat → List Char → List Char → Option (String × List Char)
  | 0, _, _ => none
  | _ + 1, [], _ => none
  | fuel + 1, c :: cs, acc =>
    if c = quoteChar then some (String.mk acc.reverse, cs)
    else if c = backslashChar then
      match cs with
      | [] => none
      | e :: cs2 =>
        if e = quoteChar then parseStringBody fuel cs2 (quoteChar :: acc)
        else if e = backslashChar then parseStringBody fuel cs2 (backslashChar :: acc)
        else if e = slashChar then parseStringBody fuel cs2 (slashChar :: acc)
        else if e = 'n' then parseStringBody fuel cs2 ('\n' :: acc)
        else if e = 't' then parseStringBody fuel cs2 ('\t' :: acc)
        else if e = 'r' then parseStringBody fuel cs2 ('\r' :: acc)
        else if e = 'b' then parseStringBody fuel cs2 (Char.ofNat 8 :: acc)
        else if e = 'f' then parseStringBody fuel cs2 (Char.ofNat 12 :: acc)
        else if e = 'u' then
          match cs2 with
          | h1 :: h2 :: h3 :: h4 :: cs3 =>
            match hexVal h1, hexVal h2, hexVal h3, hexVal h4 with
            | some v1, some v2, some v3, some v4 =>
              parseStringBody fuel cs3
                (Char.ofNat (((v1 * 16 + v2) * 16 + v3) * 16 + v4) :: acc)
            | _, _, _, _ => none
          | _ => none
        else none
    else parseStringBody fuel cs (c :: acc)

def parseDigits : Nat → List Char → Nat → Option (Nat × List Char)
  | 0, _, _ => none
  | _ + 1, [], acc => some (acc, [])
  | fuel + 1, c :: cs, acc =>
    if c.isDigit then parseDigits fuel cs (acc * 10 + (c.toNat - 48))
    else some (acc, c :: cs)

def parseNumber (fuel : Nat) (cs : List Char) : Option (Int × List Char) :=
  match cs with
  | [] => none
  | c :: rest =>
    if c = '-' then
      match rest with
      | d :: _ =>
        if d.isDigit then
          (parseDigits fuel rest 0).map (fun p => (-(p.1 : Int), p.2))
        else none
      | [] => none
    else if c.isDigit then
      (parseDigits fuel cs 0).map (fun p => ((p.1 : Int), p.2))
    else none

mutual

def parseValue : Nat → List Char → Option (JValue × List Char)
  | 0, _ => none
  | fuel + 1, cs =>
    match skipWs cs with
    | [] => none
    | c :: rest =>
      if c = 'n' then
        match rest with
        | 'u' :: 'l' :: 'l' :: rs => some (JValue.null, rs)
        | _ => none
      else if c = 't' then
        match rest with
        | 'r' :: 'u' :: 'e' :: rs => some (JValue.bool true, rs)
        | _ => none
      else if c = 'f' then
        match rest with
        | 'a' :: 'l' :: 's' :: 'e' :: rs => some (JValue.bool false, rs)
        | _ => none
      else if c = quoteChar then
        (parseStringBody fuel rest []).map (fun p => (JValue.str p.1, p.2))
      else if c = '[' then
        match skipWs rest with
        | ']' :: rs => some (JValue.arr [], rs)
        | rs => (parseArrayItems fuel rs []).map (fun p => (JValue.arr p.1, p.2))
      else if c = lbraceChar then
        match skipWs rest with
        | r :: rs =>
          if r = rbraceChar then some (JValue.obj [], rs)
          else (parseObjectItems fuel (r :: rs) []).map (fun p => (JValue.obj p.1, p.2))
        | [] => none
      else
        (parseNumber fuel (c :: rest)).map (fun p => (JValue.num p.1, p.2))

def parseArrayItems : Nat → List Char → List JValue → Option (List JValue × List Char)
  | 0, _, _ => none
  | fuel + 1, cs, acc =>
    match parseValue fuel cs with
    | none => none
    | some (v, rest) =>
      match skipWs rest with
      | ',' :: rs => parseArrayItems fuel rs (v :: acc)
      | ']' :: rs => some ((v :: acc).reverse, rs)
      | _ => none

def parseObjectItems : Nat → List Char → List (String × JValue) → Option (List (String × JValue) × List Char)
  | 0, _, _ => none
  | fuel + 1, cs, acc =>
    match skipWs cs with
    | c :: rest =>
      if c = quoteChar then
        match parseStringBody fuel rest [] with
        | none => none
        | some (key, afterKey) =>
          match skipWs afterKey with
          | ':' :: afterColon =>
            match parseValue fuel afterColon with
            | none => none
            | some (v, afterVal) =>
              match skipWs afterVal with
              | ',' :: rs => parseObjectItems fuel rs ((key, v) :: acc)
              | r :: rs =>
                if r = rbraceChar then some (((key, v) :: acc).reverse, rs) else none
              | [] => none
          | _ => none
      else none
    | [] => none

end

/-- Parse a whole JSON document: a single value with only whitespace around it. -/
def parseJson (s : String) : Option JValue :=
  match parseValue (2 * s.length + 8) s.data with
  | some (v, rest) => if (skipWs rest).isEmpty then some v else none
  | none => none

/-- Model of `serde_json::from_str::<Option<Value>>`: outer `none` is a parse
error, `some none` is a parsed top-level `null` (serde maps it to `None`),
`some (some v)` is any other parsed value. -/
def serdeFromStrOptValue (s : String) : Option (Option JValue) :=
  (parseJson s).map (fun v => match v with | .null => none | v => some v)

theorem parseJson_sample_object : parseJson "\x7b\"location\":\"Boston, MA\"\x7d" =
    some (JValue.obj [("location", JValue.str "Boston, MA")]) := rfl

theorem parseJson_sample_unterminated : parseJson "\x7b" = none := rfl

theorem serdeFromStrOptValue_null : serdeFromStrOptValue "null" = some none := rfl

/-! ## Error model (`agentsmith-common/src/error/error.rs`)

The variant `LLMError` does not appear in `error.rs` as given, but it is
named at the single use site `gcp_gemini_llm.rs` (the early-reject branch
of `GeminiLLM::generate`); it is included here so that use site is
representable. -/

inductive error.Error where
  | NotImplemented : error.Error
  | LoginFail : error.Error
  | JwksError : error.Error
  | AgentFactoryError (id : Nat) (code : Nat) : error.Error
  | AgentError (id : Nat) (code : Nat) : error.Error
  | ToolFactoryError (id : Nat) (code : Nat) : error.Error
  | ToolError (id : Nat) (code : Nat) : error.Error
  | LLMError (id : Nat) (code : Nat) : error.Error
  deriving Repr, DecidableEq

/-! ## Configuration model (`agentsmith-common/src/config/config.rs`)

Only the gateway registry is modelled; the unrelated server fields
(redis, database, host, security) play no role in the LLM core. -/

structure config.GatewayConfig where
  baseurl : String
  api_key : String
  model : String
  deriving Repr, DecidableEq

structure config.GatewaysConfig where
  registry : List (String × config.GatewayConfig)
  deriving Repr, DecidableEq

structure config.ServerConfig where
  gateways : config.GatewaysConfig
  deriving Repr, DecidableEq

structure config.Config where
  config : config.ServerConfig
  deriving Repr, DecidableEq

/-- Model of `HashMap::get` on the gateway registry. -/
def config.GatewaysConfig.get (g : config.GatewaysConfig) (key : String) :
    Option config.GatewayConfig :=
  g.registry.lookup key

/-! ## Prompt model (`src/agentsmith-agent/src/llm/prompt.rs`)

`prompt.ToolChoice` carries a `Required` variant in addition to the three
variants written in `prompt.rs`: the lowering in `openai_llm.rs` matches on
`PromptToolChoice::Required`, so the enum as used by the crate has all
four shapes. -/

structure prompt.ContentImageUrl where
  url : String
  deriving Repr, DecidableEq

inductive prompt.UserContent where
  | text (type_ : String) (text : String) : prompt.UserContent
  | image (type_ : String) (content_type : Option String)
      (image_url : prompt.ContentImageUrl) : prompt.UserContent
  deriving Repr, DecidableEq

inductive prompt.AssistantContent where
  | text (type_ : String) (text : String) : prompt.AssistantContent
  | image (type_ : String) (content_type : Option String)
      (image_url : prompt.ContentImageUrl) : prompt.AssistantContent
  deriving Repr, DecidableEq

structure prompt.AssistantToolCall where
  id : String
  type_ : String
  function : JValue
  deriving Repr

inductive prompt.ToolChoice where
  | auto (type_ : String) (disable_parallel_tool_use : Option Bool) : prompt.ToolChoice
  | any (type_ : String) (disable_parallel_tool_use : Option Bool) : prompt.ToolChoice
  | required (type_ : String) (disable_parallel_tool_use : Option Bool) : prompt.ToolChoice
  | tool (type_ : String) (name : String)
      (disable_parallel_tool_use : Option Bool) : prompt.ToolChoice
  deriving Repr

structure prompt.Tool where
  type_ : Option String
  name : String
  description : String
  input_schema : JValue
  deriving Repr

inductive prompt.PromptMessage where
  | system (role : String) (content : String) (name : Option String) : prompt.PromptMessage
  | user (role : String) (content : List prompt.UserContent)
      (name : Option String) : prompt.PromptMessage
  | assistant (role : String) (content : Option (List prompt.AssistantContent))
      (refusal : Option String) (name : Option String)
      (tool_calls : Option prompt.AssistantToolCall) : prompt.PromptMessage
  | tool (role : String) (content : List String) (name : String) : prompt.PromptMessage
  deriving Repr

inductive prompt.Prompt where
  | simple (system : String) (user : String) (tools : Option (List prompt.Tool))
      (tool_choice : Option prompt.ToolChoice) : prompt.Prompt
  | messages (system : String) (messages : List prompt.PromptMessage)
      (tools : Option (List prompt.Tool))
      (tool_choice : Option prompt.ToolChoice) : prompt.Prompt
  deriving Repr

/-! ## LLM configuration and result model (`src/agentsmith-agent/src/llm/llm.rs`) -/

structure llm.LLMCredentials where
  api_key : String
  deriving Repr, DecidableEq

structure llm.LLMConfiguration where
  credentials : llm.LLMCredentials
  base_url : Option String
  version : Option String
  model : String
  stream : Option Bool
  temperature : Option Rat
  max_tokens : Option Int
  seed : Option Int
  top_p : Option Int
  deriving Repr, DecidableEq

structure llm.LLMResultToolCall where
  id : String
  type_ : String
  name : String
  input : Option JValue
  deriving Repr

structure llm.LLMResult where
  message : String
  result : String
  tool_calls : List llm.LLMResultToolCall
  deriving Repr

/-- Embedding of `LLMResult::new` (`llm.rs` line 97). -/
def llm.LLMResult.new (message : String) : llm.LLMResult :=
  { message := message, result := "text", tool_calls := [] }

/-! ## OpenAI-compatible request model (`src/agentsmith-agent/src/llm/openai_llm.rs`) -/

structure openai_llm.ContentImageUrl where
  url : String
  deriving Repr

inductive openai_llm.UserContent where
  | text (type_ : String) (text : String) : openai_llm.UserContent
  | image (type_ : String) (image_url : openai_llm.ContentImageUrl) : openai_llm.UserContent
  deriving Repr

inductive openai_llm.AssistantContent where
  | text (type_ : String) (text : String) : openai_llm.AssistantContent
  | image (type_ : String) (image_url : openai_llm.ContentImageUrl) : openai_llm.AssistantContent
  deriving Repr

structure openai_llm.AssistantToolCall where
  id : String
  type_ : String
  function : JValue
  deriving Repr

structure openai_llm.ToolChoiceFunctionName where
  name : String
  deriving Repr

inductive openai_llm.ToolChoice where
  | string (s : String) : openai_llm.ToolChoice
  | function (type_ : String) (name : openai_llm.ToolChoiceFunctionName) : openai_llm.ToolChoice
  deriving Repr

structure openai_llm.ToolFunction where
  name : String
  description : String
  parameters : JValue
  deriving Repr

structure openai_llm.Tool where
  type_ : String
  function : openai_llm.ToolFunction
  deriving Repr

inductive openai_llm.OpenAIRequestMessage where
  | system (role : String) (content : String) (name : Option String) :
      openai_llm.OpenAIRequestMessage
  | user (role : String) (content : List openai_llm.UserContent) (name : Option String) :
      openai_llm.OpenAIRequestMessage
  | assistant (role : String) (content : Option (List openai_llm.AssistantContent))
      (refusal : Option String) (name : Option String)
      (tool_calls : Option openai_llm.AssistantToolCall) : openai_llm.OpenAIRequestMessage
  | tool (role : String) (content : List String) (name : String) :
      openai_llm.OpenAIRequestMessage
  deriving Repr

structure openai_llm.OpenAIRequest where
  model : String
  stream : Bool
  messages : List openai_llm.OpenAIRequestMessage
  temperature : Rat
  max_tokens : Int
  seed : Int
  top_p : Int
  tool_choice : Option openai_llm.ToolChoice
  tools : Option (List openai_llm.Tool)
  parallel_tool_calls : Option Bool
  deriving Repr

/-- Embedding of `UserContent::map_user_content` (`openai_llm.rs` line 239). -/
def openai_llm.UserContent.map_user_content : prompt.UserContent → openai_llm.UserContent
  | .text type_ t => .text type_ t
  | .image type_ _content_type image_url => .image type_ ⟨image_url.url⟩

/-- Embedding of `AssistantContent::from_prompt_assistant_content` (`openai_llm.rs` line 274). -/
def openai_llm.AssistantContent.from_prompt_assistant_content :
    prompt.AssistantContent → openai_llm.AssistantContent
  | .text type_ t => .text type_ t
  | .image type_ _content_type image_url => .image type_ ⟨image_url.url⟩

/-- Embedding of `AssistantToolCall::from_prompt_assistant_tool_calls` (`openai_llm.rs` line 303). -/
def openai_llm.AssistantToolCall.from_prompt_assistant_tool_calls
    (tool_call : prompt.AssistantToolCall) : openai_llm.AssistantToolCall :=
  { function := tool_call.function, id := tool_call.id, type_ := tool_call.type_ }

/-- Embedding of `Tool::from_prompt` (`openai_llm.rs` line 343). -/
def openai_llm.Tool.from_prompt (item : prompt.Tool) : openai_llm.Tool :=
  { type_ := "function"
    function :=
      { name := item.name
        description := item.description
        parameters := item.input_schema } }

/-- Embedding of `OpenAIRequestMessage::from_prompt_message` (`openai_llm.rs` line 184). -/
def openai_llm.OpenAIRequestMessage.from_prompt_message :
    prompt.PromptMessage → openai_llm.OpenAIRequestMessage
  | .system role content name => .system role content name
  | .user role content name =>
      .user role (content.map openai_llm.UserContent.map_user_content) name
  | .assistant role content refusal name tool_calls =>
      .assistant role
        (content.map (fun c => c.map openai_llm.AssistantContent.from_prompt_assistant_content))
        refusal name
        (tool_calls.map openai_llm.AssistantToolCall.from_prompt_assistant_tool_calls)
  | .tool role content name => .tool role content name

/-- The `tool_choice` / `parallel_tool_calls` computation of the
`Prompt::Messages` arm of `OpenAIRequest::from_prompt` (`openai_llm.rs`
lines 100-133): the mutable `parallel_tool_calls` local is modelled as the
second component of the returned pair. -/
def openai_llm.resolveToolChoice (is_empty_tools : Bool)
    (tool_choice : Option prompt.ToolChoice) :
    Option openai_llm.ToolChoice × Option Bool :=
  if is_empty_tools then (none, none)
  else
    match tool_choice with
    | some choice =>
      match choice with
      | .any _ disable_parallel_tool_use => (none, disable_parallel_tool_use)
      | .auto _ disable_parallel_tool_use => (none, disable_parallel_tool_use)
      | .required _ disable_parallel_tool_use =>
          (some (.string "required"), disable_parallel_tool_use)
      | .tool _ name disable_parallel_tool_use =>
          (some (.function "function" ⟨name⟩), disable_parallel_tool_use)
    | none => (none, none)

/-- Embedding of `OpenAIRequest::from_prompt` (`openai_llm.rs` line 49). -/
def openai_llm.OpenAIRequest.from_prompt (config : llm.LLMConfiguration)
    (p : prompt.Prompt) : openai_llm.OpenAIRequest :=
  match p with
  | .simple system user _tools _tool_choice =>
    { model := config.model
      stream := config.stream.getD false
      messages :=
        [ .system "system" system none,
          .user "user" [.text "text" user] none ]
      temperature := config.temperature.getD 1
      max_tokens := config.max_tokens.getD 500
      seed := config.seed.getD 0
      top_p := config.top_p.getD 1
      tool_choice := none
      tools := none
      parallel_tool_calls := none }
  | .messages system messages tools tool_choice =>
    let request_messages :=
      openai_llm.OpenAIRequestMessage.system "system" system none ::
        messages.map openai_llm.OpenAIRequestMessage.from_prompt_message
    let converted_tools :=
      match tools with
      | none => none
      | some ts => some (ts.map openai_llm.Tool.from_prompt)
    let is_empty_tools := (converted_tools.getD []).isEmpty
    let resolved := openai_llm.resolveToolChoice is_empty_tools tool_choice
    { model := config.model
      stream := config.stream.getD false
      messages := request_messages
      temperature := config.temperature.getD 1
      max_tokens := config.max_tokens.getD 500
      seed := config.seed.getD 0
      top_p := config.top_p.getD 1
      tool_choice := resolved.1
      tools := converted_tools
      parallel_tool_calls := resolved.2 }

/-! ## OpenAI-compatible response model (`openai_llm.rs` lines 355-395)

The declared field `OpenAIGenerateResponseMessage.tool_calls` in the Rust
source has type `Option<Value>`, while its only consumer
`LLMResultToolCall::from_openai` takes `Option<Vec<Value>>`; the embedding
uses the consumer's element-list reading so that the data can flow as the
code intends. -/

structure openai_llm.OpenAIGenerateResponseMessage where
  content : Option String
  role : String
  tool_calls : Option (List JValue)
  deriving Repr

structure openai_llm.OpenAIGenerateResponseChoice where
  finish_reason : String
  index : Nat
  message : openai_llm.OpenAIGenerateResponseMessage
  deriving Repr

structure openai_llm.OpenAIGenerateResponseUsage where
  prompt_tokens : Nat
  completion_tokens : Nat
  total_tokens : Nat
  deriving Repr

structure openai_llm.OpenAIGenerateResponseTimeInfo where
  queue_time : Rat
  prompt_time : Rat
  completion_time : Rat
  total_time : Rat
  created : Int
  deriving Repr

structure openai_llm.OpenAIGenerateResponse where
  id : Option String
  choices : List openai_llm.OpenAIGenerateResponseChoice
  created : Int
  model : String
  system_fingerprint : String
  object : String
  usage : openai_llm.OpenAIGenerateResponseUsage
  time_info : Option openai_llm.OpenAIGenerateResponseTimeInfo
  deriving Repr

/-! ## Sequential fallible map

`mapOrPanic f xs` models a Rust iterator `map`/`collect` whose closure can
panic: `none` when some element panics, otherwise the in-order list of
results. -/

def mapOrPanic {α β : Type} (f : α → Option β) : List α → Option (List β)
  | [] => some []
  | x :: xs =>
    match f x with
    | none => none
    | some y => (mapOrPanic f xs).map (fun ys => y :: ys)

/-! ## Anthropic request model (`src/agentsmith-agent/src/llm/anthropic_llm.rs`) -/

inductive anthropic_llm.Role where
  | user : anthropic_llm.Role
  | assistant : anthropic_llm.Role
  deriving Repr, DecidableEq

structure anthropic_llm.AnthropicMessageContentSource where
  type_ : String
  media_type : String
  data : String
  deriving Repr

inductive anthropic_llm.AnthropicMessageContent where
  | text (type_ : String) (text : String) : anthropic_llm.AnthropicMessageContent
  | image (type_ : String) (source : anthropic_llm.AnthropicMessageContentSource) :
      anthropic_llm.AnthropicMessageContent
  | toolUse (type_ : String) (id : String) (name : String) (input : Option JValue) :
      anthropic_llm.AnthropicMessageContent
  | toolResult (type_ : String) (tool_use_id : String) (is_error : Option Bool)
      (content : Option JValue) : anthropic_llm.AnthropicMessageContent
  deriving Repr

structure anthropic_llm.AnthropicMessage where
  role : anthropic_llm.Role
  content : List anthropic_llm.AnthropicMessageContent
  deriving Repr

inductive anthropic_llm.ToolChoice where
  | auto (type_ : String) (disable_parallel_tool_use : Option Bool) : anthropic_llm.ToolChoice
  | any (type_ : String) (disable_parallel_tool_use : Option Bool) : anthropic_llm.ToolChoice
  | tool (type_ : String) (name : String)
      (disable_parallel_tool_use : Option Bool) : anthropic_llm.ToolChoice
  deriving Repr

structure anthropic_llm.Tool where
  name : String
  description : String
  input_schema : JValue
  deriving Repr

structure anthropic_llm.AnthropicMetadata where
  user_id : String
  deriving Repr

structure anthropic_llm.AnthropicRequest where
  model : String
  system : String
  metadata : Option anthropic_llm.AnthropicMetadata
  messages : List anthropic_llm.AnthropicMessage
  max_tokens : Option Int
  stop_sequences : Option (List String)
  temperature : Option Rat
  top_p : Option Rat
  stream : Option Bool
  tool_choice : Option anthropic_llm.ToolChoice
  tools : Option (List anthropic_llm.Tool)
  deriving Repr

/-- Embedding of `AnthropicMessageContent::map_from_content` (`anthropic_llm.rs` line 82). -/
def anthropic_llm.AnthropicMessageContent.map_from_content :
    prompt.UserContent → anthropic_llm.AnthropicMessageContent
  | .text type_ t => .text type_ t
  | .image type_ content_type image_url =>
      .image type_
        { type_ := "base64"
          media_type := content_type.getD "image/png"
          data := image_url.url }

/-- Embedding of `AnthropicMessageContent::map_assistant_content` (`anthropic_llm.rs` line 97). -/
def anthropic_llm.AnthropicMessageContent.map_assistant_content :
    prompt.AssistantContent → anthropic_llm.AnthropicMessageContent
  | .text type_ t => .text type_ t
  | .image type_ content_type image_url =>
      .image type_
        { type_ := "base64"
          media_type := content_type.getD "image/png"
          data := image_url.url }

/-- Embedding of `AnthropicMessage::from_prompt_message` (`anthropic_llm.rs` line 30).
The `Assistant` arm calls `content.unwrap()`, which panics when the
assistant message carries no content; the panic is modelled by `none`. -/
def anthropic_llm.AnthropicMessage.from_prompt_message :
    prompt.PromptMessage → Option anthropic_llm.AnthropicMessage
  | .user _role content _name =>
      some { role := .user
             content := content.map anthropic_llm.AnthropicMessageContent.map_from_content }
  | .assistant _role content _refusal _name _tool_calls =>
      content.map (fun c =>
        { role := .assistant
          content := c.map anthropic_llm.AnthropicMessageContent.map_assistant_content })
  | _ => some { role := .user, content := [] }

/-- Embedding of `AnthropicRequest::from_prompt` (`anthropic_llm.rs` line 226); `none`
models a panic inside the per-message conversion of the `Messages` arm. -/
def anthropic_llm.AnthropicRequest.from_prompt (config : llm.LLMConfiguration)
    (p : prompt.Prompt) : Option anthropic_llm.AnthropicRequest :=
  match p with
  | .simple system user _tools _tool_choice =>
    some
      { model := config.model
        stream := some false
        tool_choice := none
        system := system
        metadata := none
        messages :=
          [ { role := .user
              content := [.text "text" user] } ]
        temperature := config.temperature
        max_tokens := config.max_tokens
        top_p := none
        stop_sequences := none
        tools := none }
  | .messages system messages _tools _tool_choice =>
    (mapOrPanic anthropic_llm.AnthropicMessage.from_prompt_message messages).map
      (fun request_messages =>
        { model := config.model
          stream := some false
          tool_choice := none
          system := system
          metadata := none
          messages := request_messages
          temperature := some 1
          max_tokens := some 500
          top_p := some 1
          stop_sequences := none
          tools := none })

/-! ## Anthropic response model (`anthropic_llm.rs` lines 281-307) -/

structure anthropic_llm.Content where
  text : Option String
  type : String
  id : Option String
  name : Option String
  input : Option JValue
  deriving Repr

structure anthropic_llm.Usage where
  input_tokens : Nat
  output_tokens : Nat
  deriving Repr

structure anthropic_llm.AnthropicGenerateResponse where
  content : List anthropic_llm.Content
  model : String
  stop_reason : Option String
  usage : anthropic_llm.Usage
  deriving Repr

/-! ## Response normalization (`src/agentsmith-agent/src/llm/llm.rs`) -/

/-- The per-entry field extraction of `LLMResultToolCall::from_openai`
(`llm.rs` lines 55-80): the tuple `(id, type_, name, arguments)`. -/
def llm.toolCallFields (item : JValue) :
    String × String × Option JValue × Option JValue :=
  let id :=
    match item.getField "id" with
    | some (.str s) => s
    | _ => ""
  let type_ :=
    match item.getField "type" with
    | some (.str s) => s
    | _ => "function"
  let function_value := (item.getField "function").getD .null
  let name_and_argument :=
    match function_value with
    | .obj o => (o.lookup "name", o.lookup "arguments")
    | _ => (none, none)
  (id, type_, name_and_argument.1, name_and_argument.2)

/-- The post-filter conversion of `LLMResultToolCall::from_openai`
(`llm.rs` lines 82-87).  Each `unwrap` that can fail is modelled by `none`:
a non-string `name`, a non-string `arguments`, or an `arguments` string
that does not parse as JSON all panic in the Rust code. -/
def llm.convertToolCall (o : String × String × Option JValue × Option JValue) :
    Option llm.LLMResultToolCall :=
  match o.2.2.1 with
  | none => none
  | some name_value =>
    match name_value.asStr with
    | none => none
    | some name =>
      match o.2.2.2 with
      | none => none
      | some argument_value =>
        match argument_value.asStr with
        | none => none
        | some argument_text =>
          match serdeFromStrOptValue argument_text with
          | none => none
          | some input => some { id := o.1, type_ := o.2.1, name := name, input := input }

/-- Embedding of `LLMResultToolCall::from_openai` (`llm.rs` line 52).  The outer `Option`
models a panic; `some none` is Rust's `None` return, `some (some l)` is
`Some(l)`. -/
def llm.LLMResultToolCall.from_openai (tool_calls : Option (List JValue)) :
    Option (Option (List llm.LLMResultToolCall)) :=
  match tool_calls with
  | some tcs =>
    let mapped := tcs.map llm.toolCallFields
    let filtered := mapped.filter (fun o => o.2.2.1.isSome && o.2.2.2.isSome)
    (mapOrPanic llm.convertToolCall filtered).map some
  | none => some none

/-- The sentinel result built when a response carries no choice
(`llm.rs` lines 120, 145, 169). -/
def llm.noResponseSentinel : llm.LLMResult :=
  { message := "No response received.", result := "error", tool_calls := [] }

/-- Embedding of `LLMResult::from_cerebras` (`llm.rs` line 101).  `none` models a panic
inside the tool-call conversion. -/
def llm.LLMResult.from_cerebras (cerebras_response : openai_llm.OpenAIGenerateResponse) :
    Option llm.LLMResult :=
  match cerebras_response.choices.head? with
  | some choice =>
    match llm.LLMResultToolCall.from_openai choice.message.tool_calls with
    | none => none
    | some tool_calls_opt =>
      some { message := choice.message.content.getD ""
             result := ""
             tool_calls := tool_calls_opt.getD [] }
  | none => some llm.noResponseSentinel

/-- Embedding of `LLMResult::from_openai` (`llm.rs` line 126); the body is identical to
`from_cerebras`. -/
def llm.LLMResult.from_openai (cerebras_response : openai_llm.OpenAIGenerateResponse) :
    Option llm.LLMResult :=
  match cerebras_response.choices.head? with
  | some choice =>
    match llm.LLMResultToolCall.from_openai choice.message.tool_calls with
    | none => none
    | some tool_calls_opt =>
      some { message := choice.message.content.getD ""
             result := ""
             tool_calls := tool_calls_opt.getD [] }
  | none => some llm.noResponseSentinel

/-- Embedding of `LLMResult::from_groq` (`llm.rs` line 150); the body is identical to
`from_cerebras`. -/
def llm.LLMResult.from_groq (cerebras_response : openai_llm.OpenAIGenerateResponse) :
    Option llm.LLMResult :=
  match cerebras_response.choices.head? with
  | some choice =>
    match llm.LLMResultToolCall.from_openai choice.message.tool_calls with
    | none => none
    | some tool_calls_opt =>
      some { message := choice.message.content.getD ""
             result := ""
             tool_calls := tool_calls_opt.getD [] }
  | none => some llm.noResponseSentinel

/-- Embedding of `LLMResult::from_anthropic` (`llm.rs` line 174).  The function reads
`response.content[0]` unconditionally (panic on an empty `content` array,
modelled by `none`) and calls `content.text.unwrap()` in every
`stop_reason` branch (panic when `text` is absent). -/
def llm.LLMResult.from_anthropic (anthropic_generate_response : anthropic_llm.AnthropicGenerateResponse) :
    Option llm.LLMResult :=
  match anthropic_generate_response.content.head? with
  | none => none
  | some content =>
    match anthropic_generate_response.stop_reason with
    | some stop_reason =>
      match stop_reason with
      | "end_turn" =>
        content.text.map (fun t => { message := t, result := "", tool_calls := [] })
      | "max_tokens" =>
        content.text.map (fun t => { message := t, result := "", tool_calls := [] })
      | "stop_sequence" =>
        content.text.map (fun t => { message := t, result := "", tool_calls := [] })
      | "tool_use" =>
        content.text.map (fun t => { message := t, result := "", tool_calls := [] })
      | _ =>
        content.text.map (fun t => { message := t, result := "", tool_calls := [] })
    | none =>
      content.text.map (fun t => { message := t, result := "", tool_calls := [] })

/-! ## Gemini adapter (`src/agentsmith-agent/src/llm/gcp_gemini_llm.rs`) -/

structure gcp_gemini_llm.GeminiGenerateRequestContentPart where
  text : String
  deriving Repr, DecidableEq

structure gcp_gemini_llm.GeminiGenerateRequestContent where
  parts : List gcp_gemini_llm.GeminiGenerateRequestContentPart
  deriving Repr, DecidableEq

structure gcp_gemini_llm.GeminiGenerateRequest where
  contents : List gcp_gemini_llm.GeminiGenerateRequestContent
  deriving Repr, DecidableEq

structure gcp_gemini_llm.UsageMetadata where
  prompt_token_count : Int
  candidates_token_count : Int
  total_token_count : Int
  deriving Repr, DecidableEq

structure gcp_gemini_llm.GeminiGenerateResponseCandidate where
  content : gcp_gemini_llm.GeminiGenerateRequestContent
  finish_reason : String
  index : Nat
  deriving Repr, DecidableEq

structure gcp_gemini_llm.GeminiGenerateResponse where
  candidates : List gcp_gemini_llm.GeminiGenerateResponseCandidate
  usage_metadata : gcp_gemini_llm.UsageMetadata
  deriving Repr, DecidableEq

/-- The prompt-flattening step of `GeminiLLM::generate`
(`gcp_gemini_llm.rs` lines 110-122): `Simple` becomes
`"\n{system}\n{user}\n"`, `Messages` becomes the empty string. -/
def gcp_gemini_llm.GeminiLLM.lower_prompt : prompt.Prompt → String
  | .simple system user _tools _tool_choice => "\n" ++ system ++ "\n" ++ user ++ "\n"
  | .messages _system _messages _tools _tool_choice => ""

/-- Embedding of `GeminiLLM::generate` up to the transport boundary
(`gcp_gemini_llm.rs` lines 110-134): either the early rejection of an
empty flattened prompt, or the request value that would be posted. -/
def gcp_gemini_llm.GeminiLLM.generate_until_send (p : prompt.Prompt) :
    Except error.Error gcp_gemini_llm.GeminiGenerateRequest :=
  let flattened := gcp_gemini_llm.GeminiLLM.lower_prompt p
  if flattened.length = 0 then
    .error (.LLMError 0 0)
  else
    .ok { contents := [{ parts := [{ text := flattened }] }] }

/-- The response handling of `GeminiLLM::generate`
(`gcp_gemini_llm.rs` lines 153-155): `&res.candidates[0].content.parts[0].text`
indexes both arrays unconditionally; `none` models the panic on an empty
`candidates` (or `parts`) array. -/
def gcp_gemini_llm.GeminiLLM.handle_response (res : gcp_gemini_llm.GeminiGenerateResponse) :
    Option llm.LLMResult :=
  (res.candidates.head?).bind (fun c =>
    (c.content.parts.head?).map (fun p => llm.LLMResult.new p.text))

/-! ## Adapter instances and the provider factory
(`src/agentsmith-agent/src/llm/llm_factory.rs` and the per-adapter `new`
constructors).  Each adapter's `new` looks up its gateway entry in the
global configuration with `.get(...).unwrap()`: `none` models the panic
when the entry is missing.  The `reqwest` client handle owned by every
adapter is outside the model. -/

structure anthropic_llm.AnthropicLLM where
  global_config : config.GatewayConfig
  config : llm.LLMConfiguration
  deriving Repr, DecidableEq

structure cerebras_llm.CerebrasLLM where
  global_config : config.GatewayConfig
  config : llm.LLMConfiguration
  deriving Repr, DecidableEq

structure gcp_gemini_llm.GeminiLLM where
  global_config : config.GatewayConfig
  config : llm.LLMConfiguration
  deriving Repr, DecidableEq

structure groq_llm.GroqLLM where
  api_key : String
  base_url : String
  model : String
  deriving Repr, DecidableEq

structure openai_llm.OpenAILLM where
  global_config : config.GatewayConfig
  config : llm.LLMConfiguration
  deriving Repr, DecidableEq

structure huggingface_tgi_llm.HuggingFaceLLM where
  api_key : String
  base_url : String
  deriving Repr, DecidableEq

/-- Embedding of `AnthropicLLM::new` (`anthropic_llm.rs` line 317). -/
def anthropic_llm.AnthropicLLM.new (cfg : config.Config)
    (llm_configuration : llm.LLMConfiguration) : Option anthropic_llm.AnthropicLLM :=
  (cfg.config.gateways.get "anthropic_gateway").map
    (fun g => { global_config := g, config := llm_configuration })

/-- Embedding of `CerebrasLLM::new` (`cerebras_llm.rs` line 25). -/
def cerebras_llm.CerebrasLLM.new (cfg : config.Config)
    (llm_configuration : llm.LLMConfiguration) : Option cerebras_llm.CerebrasLLM :=
  (cfg.config.gateways.get "cerebras_gateway").map
    (fun g => { global_config := g, config := llm_configuration })

/-- Embedding of `GeminiLLM::new` (`gcp_gemini_llm.rs` line 82). -/
def gcp_gemini_llm.GeminiLLM.new (cfg : config.Config)
    (llm_configuration : llm.LLMConfiguration) : Option gcp_gemini_llm.GeminiLLM :=
  (cfg.config.gateways.get "gemini_gateway").map
    (fun g => { global_config := g, config := llm_configuration })

/-- Embedding of `GroqLLM::new` (`groq_llm.rs` line 25).  Unlike its four
siblings, the groq adapter stores no `LLMConfiguration`: `new` takes only
a model-name string and copies `api_key` and `baseurl` out of the
`groq_gateway` entry (`groq_llm.rs` lines 27-38). -/
def groq_llm.GroqLLM.new (cfg : config.Config)
    (model : String) : Option groq_llm.GroqLLM :=
  (cfg.config.gateways.get "groq_gateway").map
    (fun g => { api_key := g.api_key, base_url := g.baseurl, model := model })

/-- Embedding of `OpenAILLM::new` (`openai_llm.rs` line 399). -/
def openai_llm.OpenAILLM.new (cfg : config.Config)
    (llm_configuration : llm.LLMConfiguration) : Option openai_llm.OpenAILLM :=
  (cfg.config.gateways.get "openai_gateway").map
    (fun g => { global_config := g, config := llm_configuration })

/-- Embedding of `HuggingFaceLLM::new` (`huggingface_tgi_llm.rs` line 17):
it reads the `gemini_gateway` entry and ignores the passed
`LLMConfiguration` entirely; its `generate` is a stub returning a fixed
placeholder.  The factory never constructs this adapter. -/
def huggingface_tgi_llm.HuggingFaceLLM.new (cfg : config.Config)
    (_llm_configuration : llm.LLMConfiguration) :
    Option huggingface_tgi_llm.HuggingFaceLLM :=
  (cfg.config.gateways.get "gemini_gateway").map
    (fun g => { api_key := g.api_key, base_url := g.baseurl })

/-- The `LLM` enum of `llm_factory.rs` (line 17). -/
inductive llm_factory.LLM where
  | anthropicLLM (a : anthropic_llm.AnthropicLLM) : llm_factory.LLM
  | cerebrasLLM (a : cerebras_llm.CerebrasLLM) : llm_factory.LLM
  | geminiLLM (a : gcp_gemini_llm.GeminiLLM) : llm_factory.LLM
  | groqLLM (a : groq_llm.GroqLLM) : llm_factory.LLM
  | openaiLLM (a : openai_llm.OpenAILLM) : llm_factory.LLM
  | huggingFaceLLM (a : huggingface_tgi_llm.HuggingFaceLLM) : llm_factory.LLM
  deriving Repr, DecidableEq

/-- The effective base URL each adapter's `generate` resolves for its
outbound request.  The four `LLMConfiguration`-storing adapters compute
`config.base_url.unwrap_or(global_config.baseurl)` (`openai_llm.rs` line
422, `anthropic_llm.rs` line 339, `cerebras_llm.rs` line 50,
`gcp_gemini_llm.rs` line 106); the groq adapter uses its stored gateway
`base_url` unconditionally, with no per-call override (`groq_llm.rs` line
47); the Hugging Face stub stores a `base_url` its placeholder `generate`
never reads. -/
def llm_factory.LLM.effectiveBaseUrl : llm_factory.LLM → String
  | .anthropicLLM a => a.config.base_url.getD a.global_config.baseurl
  | .cerebrasLLM a => a.config.base_url.getD a.global_config.baseurl
  | .geminiLLM a => a.config.base_url.getD a.global_config.baseurl
  | .groqLLM a => a.base_url
  | .openaiLLM a => a.config.base_url.getD a.global_config.baseurl
  | .huggingFaceLLM a => a.base_url

/-- The effective model name each adapter's request lowering uses:
`config.model` for the four configuration-storing adapters, and the
stored `model` string for groq (`groq_llm.rs` line 49).  The Hugging Face
stub has no model at all, hence `none`. -/
def llm_factory.LLM.effectiveModel : llm_factory.LLM → Option String
  | .anthropicLLM a => some a.config.model
  | .cerebrasLLM a => some a.config.model
  | .geminiLLM a => some a.config.model
  | .groqLLM a => some a.model
  | .openaiLLM a => some a.config.model
  | .huggingFaceLLM _ => none

/-- Embedding of `LLMRegistry` (`llm_factory.rs` line 55): a `HashMap<String, LLM>`
modelled as an association list where `register` (insert) prepends and
`get` takes the first match. -/
structure llm_factory.LLMRegistry where
  items : List (String × llm_factory.LLM)
  deriving Repr, DecidableEq

def llm_factory.LLMRegistry.new : llm_factory.LLMRegistry := { items := [] }

/-- Embedding of `LLMRegistry::register` (`llm_factory.rs` line 64). -/
def llm_factory.LLMRegistry.register (r : llm_factory.LLMRegistry) (key : String)
    (item : llm_factory.LLM) : llm_factory.LLMRegistry :=
  { items := (key, item) :: r.items }

/-- Embedding of `LLMRegistry::get` (`llm_factory.rs` line 68). -/
def llm_factory.LLMRegistry.get (r : llm_factory.LLMRegistry) (key : String) :
    Option llm_factory.LLM :=
  r.items.lookup key

/-- Embedding of `LLMFactory` (`llm_factory.rs` line 45); the `Arc<Mutex<...>>` around
the registry becomes explicit state passing. -/
structure llm_factory.LLMFactory where
  config : config.Config
  registry : llm_factory.LLMRegistry
  deriving Repr, DecidableEq

/-- Embedding of `LLMFactory::new` (`llm_factory.rs` line 75). -/
def llm_factory.LLMFactory.new (cfg : config.Config) : llm_factory.LLMFactory :=
  { config := cfg, registry := llm_factory.LLMRegistry.new }

/-- Embedding of `LLMFactory::instance` (`llm_factory.rs` line 85).  The result pairs the
returned `Result<LLM>` with the registry state after the call; the outer
`Option` models a panic inside an adapter constructor (missing gateway
configuration).  In the groq arm the source passes the whole per-call
`config` where `GroqLLM::new` declares a `model: String` parameter
(`llm_factory.rs` line 116 against `groq_llm.rs` line 25 — a
non-compiling seam of the repository); following the consumer's
signature, the embedding passes the configuration's model name. -/
def llm_factory.LLMFactory.«instance» (f : llm_factory.LLMFactory) (key : String)
    (cfg : llm.LLMConfiguration) :
    Option (Except error.Error llm_factory.LLM × llm_factory.LLMFactory) :=
  match f.registry.get key with
  | some l => some (.ok l, f)
  | none =>
    match key with
    | "anthropic" =>
      (anthropic_llm.AnthropicLLM.new f.config cfg).map (fun a =>
        let l := llm_factory.LLM.anthropicLLM a
        (.ok l, { f with registry := f.registry.register key l }))
    | "cerebras" =>
      (cerebras_llm.CerebrasLLM.new f.config cfg).map (fun a =>
        let l := llm_factory.LLM.cerebrasLLM a
        (.ok l, { f with registry := f.registry.register key l }))
    | "gemini" =>
      (gcp_gemini_llm.GeminiLLM.new f.config cfg).map (fun a =>
        let l := llm_factory.LLM.geminiLLM a
        (.ok l, { f with registry := f.registry.register key l }))
    | "groq" =>
      (groq_llm.GroqLLM.new f.config cfg.model).map (fun a =>
        let l := llm_factory.LLM.groqLLM a
        (.ok l, { f with registry := f.registry.register key l }))
    | "openai" =>
      (openai_llm.OpenAILLM.new f.config cfg).map (fun a =>
        let l := llm_factory.LLM.openaiLLM a
        (.ok l, { f with registry := f.registry.register key l }))
    | _ => some (.error (.AgentFactoryError 0 0), f)

/-- The provider keys `LLMFactory::instance` recognizes. -/
def llm_factory.knownProviderKeys : List String :=
  ["anthropic", "cerebras", "gemini", "groq", "openai"]

/-! ## Role kinds, used to state order/role preservation -/

inductive RoleKind where
  | system : RoleKind
  | user : RoleKind
  | assistant : RoleKind
  | tool : RoleKind
  deriving Repr, DecidableEq

def prompt.PromptMessage.roleKind : prompt.PromptMessage → RoleKind
  | .system _ _ _ => .system
  | .user _ _ _ => .user
  | .assistant _ _ _ _ _ => .assistant
  | .tool _ _ _ => .tool

def openai_llm.OpenAIRequestMessage.roleKind : openai_llm.OpenAIRequestMessage → RoleKind
  | .system _ _ _ => .system
  | .user _ _ _ => .user
  | .assistant _ _ _ _ _ => .assistant
  | .tool _ _ _ => .tool

/-! ## Helper lemmas about `mapOrPanic` and `filter`/`map` -/

theorem mapOrPanic_spec {α β : Type} (f : α → Option β) :
    ∀ (xs : List α) (ys : List β), mapOrPanic f xs = some ys →
      ys.length = xs.length ∧
        ∀ i (h1 : i < xs.length) (h2 : i < ys.length),
          f (xs.get ⟨i, h1⟩) = some (ys.get ⟨i, h2⟩) := by
  intro xs
  induction xs with
  | nil =>
    intro ys h
    simp only [mapOrPanic, Option.some.injEq] at h
    subst h
    refine ⟨rfl, ?_⟩
    intro i h1 _
    exact absurd h1 (Nat.not_lt_zero i)
  | cons x xs ih =>
    intro ys h
    simp only [mapOrPanic] at h
    cases hx : f x with
    | none => rw [hx] at h; exact absurd h (by simp)
    | some y =>
      rw [hx] at h
      cases hxs : mapOrPanic f xs with
      | none => rw [hxs] at h; exact absurd h (by simp)
      | some ys0 =>
        rw [hxs] at h
        have hcons : y :: ys0 = ys := by simpa using h
        subst hcons
        obtain ⟨hlen, hidx⟩ := ih ys0 hxs
        refine ⟨by simp [hlen], ?_⟩
        intro i h1 h2
        cases i with
        | zero => simpa using hx
        | succ n =>
          have hn1 : n < xs.length := by simpa using h1
          have hn2 : n < ys0.length := by simpa using h2
          simpa using hidx n hn1 hn2

theorem mapOrPanic_eq_none_of_mem {α β : Type} (f : α → Option β) :
    ∀ (xs : List α) (x : α), x ∈ xs → f x = none → mapOrPanic f xs = none := by
  intro xs
  induction xs with
  | nil => intro x hx; exact absurd hx (List.not_mem_nil x)
  | cons y ys ih =>
    intro x hx hfx
    rcases List.mem_cons.mp hx with heq | hmem
    · subst heq
      simp [mapOrPanic, hfx]
    · simp only [mapOrPanic]
      cases hy : f y with
      | none => rfl
      | some v => rw [ih x hmem hfx]; rfl

theorem mapOrPanic_isSome_of_all {α β : Type} (f : α → Option β) :
    ∀ (xs : List α), (∀ x ∈ xs, (f x).isSome) →
      ∃ ys, mapOrPanic f xs = some ys := by
  intro xs
  induction xs with
  | nil => intro _; exact ⟨[], rfl⟩
  | cons x xs ih =>
    intro h
    obtain ⟨y, hy⟩ := Option.isSome_iff_exists.mp (h x (List.mem_cons_self x xs))
    obtain ⟨ys, hys⟩ := ih (fun z hz => h z (List.mem_cons_of_mem x hz))
    exact ⟨y :: ys, by simp [mapOrPanic, hy, hys]⟩

theorem mapOrPanic_map {α β γ : Type} (f : β → Option γ) (g : α → β) :
    ∀ (xs : List α), mapOrPanic f (xs.map g) = mapOrPanic (fun x => f (g x)) xs := by
  intro xs
  induction xs with
  | nil => rfl
  | cons x xs ih => simp only [List.map_cons, mapOrPanic, ih]

theorem filter_map_comm {α β : Type} (g : α → β) (p : β → Bool) :
    ∀ (xs : List α), (xs.map g).filter p = (xs.filter (fun x => p (g x))).map g := by
  intro xs
  induction xs with
  | nil => rfl
  | cons x xs ih =>
    by_cases h : p (g x)
    · simp [List.filter_cons, h, ih]
    · simp [List.filter_cons, h, ih]

/-! ## Shared sample values for concrete witnesses -/

def sampleCredentials : llm.LLMCredentials := { api_key := "secret-key" }

def sampleLLMConfig : llm.LLMConfiguration :=
  { credentials := sampleCredentials
    base_url := none
    version := none
    model := "model-one"
    stream := none
    temperature := none
    max_tokens := none
    seed := none
    top_p := none }

def sampleLLMConfig2 : llm.LLMConfiguration :=
  { credentials := sampleCredentials
    base_url := some "https://other.example"
    version := none
    model := "model-two"
    stream := some true
    temperature := none
    max_tokens := some 128
    seed := none
    top_p := none }

def sampleGatewayConfig : config.GatewayConfig :=
  { baseurl := "https://api.example", api_key := "gateway-key", model := "gateway-model" }

def sampleConfig : config.Config :=
  { config :=
    { gateways :=
      { registry :=
          [ ("anthropic_gateway", sampleGatewayConfig),
            ("cerebras_gateway", sampleGatewayConfig),
            ("gemini_gateway", sampleGatewayConfig),
            ("groq_gateway", sampleGatewayConfig),
            ("openai_gateway", sampleGatewayConfig) ] } } }

def sampleFactory : llm_factory.LLMFactory := llm_factory.LLMFactory.new sampleConfig

def sampleTool : prompt.Tool :=
  { type_ := none
    name := "get_weather"
    description := "Get the current weather"
    input_schema := JValue.obj [("type", JValue.str "object")] }

def emptyChoicesResponse : openai_llm.OpenAIGenerateResponse :=
  { id := none
    choices := []
    created := 0
    model := "llama3.1-8b"
    system_fingerprint := ""
    object := ""
    usage := { prompt_tokens := 0, completion_tokens := 0, total_tokens := 0 }
    time_info := none }

/-- Claim C1 (amended): for every OpenAI-compatible vendor response whose
`choices` array is empty, each of the three OpenAI-compatible normalizers
`LLMResult::from_openai` / `from_cerebras` / `from_groq` returns (totally,
without panicking) the sentinel `LLMResult` with `result = "error"` and
message `"No response received."`.  The Anthropic and Gemini response
handlers are excluded: they index `content[0]` / `candidates[0]`
unconditionally and panic on the empty array (see the counterexample). -/
theorem C1_empty_choices_yield_error_sentinel
    (resp : openai_llm.OpenAIGenerateResponse) (h : resp.choices = []) :
    llm.LLMResult.from_openai resp = some llm.noResponseSentinel ∧
    llm.LLMResult.from_cerebras resp = some llm.noResponseSentinel ∧
    llm.LLMResult.from_groq resp = some llm.noResponseSentinel := by
  refine ⟨?_, ?_, ?_⟩ <;>
    simp [llm.LLMResult.from_openai, llm.LLMResult.from_cerebras,
      llm.LLMResult.from_groq, h]

/-- Claim C1, witness: the amended theorem applied to a concrete response
with an empty `choices` array. -/
theorem C1_empty_choices_yield_error_sentinel_witness :
    llm.LLMResult.from_openai emptyChoicesResponse = some llm.noResponseSentinel ∧
    llm.LLMResult.from_cerebras emptyChoicesResponse = some llm.noResponseSentinel ∧
    llm.LLMResult.from_groq emptyChoicesResponse = some llm.noResponseSentinel :=
  C1_empty_choices_yield_error_sentinel emptyChoicesResponse rfl

/-- Claim C1, counterexample to the claim as stated: on an Anthropic
response with an empty `content` array, `LLMResult::from_anthropic`
evaluates `response.content[0]` and panics (modelled by `none`) instead of
returning the error sentinel; likewise the Gemini handler on an empty
`candidates` array panics at `res.candidates[0]`. -/
theorem C1_anthropic_empty_content_panics :
    llm.LLMResult.from_anthropic
        { content := []
          model := "claude-3-5-sonnet-20240620"
          stop_reason := none
          usage := { input_tokens := 0, output_tokens := 0 } } = none ∧
    gcp_gemini_llm.GeminiLLM.handle_response
        { candidates := []
          usage_metadata :=
            { prompt_token_count := 0, candidates_token_count := 0, total_token_count := 0 } } =
      none :=
  ⟨rfl, rfl⟩

/-- Claim C4: lowering `Prompt::Simple{system, user}` to the
OpenAI-compatible request produces exactly two messages, in order: a
system-role message carrying `system`, then a user-role message whose text
content is `user` — for all strings, including empty and unicode ones. -/
theorem C4_openai_simple_two_messages (config : llm.LLMConfiguration)
    (system user : String) (tools : Option (List prompt.Tool))
    (tool_choice : Option prompt.ToolChoice) :
    (openai_llm.OpenAIRequest.from_prompt config
        (prompt.Prompt.simple system user tools tool_choice)).messages =
      [ openai_llm.OpenAIRequestMessage.system "system" system none,
        openai_llm.OpenAIRequestMessage.user "user"
          [openai_llm.UserContent.text "text" user] none ] := rfl

/-- Claim C9: the Gemini adapter lowers the `Messages` prompt variant to
the empty string and rejects it before any HTTP request is issued,
returning the error value `LLMError { id: 0, code: 0 }`. -/
theorem C9_gemini_rejects_messages_before_send (system : String)
    (messages : List prompt.PromptMessage) (tools : Option (List prompt.Tool))
    (tool_choice : Option prompt.ToolChoice) :
    gcp_gemini_llm.GeminiLLM.lower_prompt
        (prompt.Prompt.messages system messages tools tool_choice) = "" ∧
    gcp_gemini_llm.GeminiLLM.generate_until_send
        (prompt.Prompt.messages system messages tools tool_choice) =
      Except.error (error.Error.LLMError 0 0) :=
  ⟨rfl, rfl⟩

/-- Claim C10: the OpenAI-compatible lowering of `Prompt::Simple` always
sets `tools = None`, `tool_choice = None` and `parallel_tool_calls = None`,
even when the prompt carries a non-empty tools list and a tool choice:
tool declarations on the `Simple` variant never reach the vendor request. -/
theorem C10_openai_simple_discards_tools (config : llm.LLMConfiguration)
    (system user : String) (tools : Option (List prompt.Tool))
    (tool_choice : Option prompt.ToolChoice) :
    (openai_llm.OpenAIRequest.from_prompt config
        (prompt.Prompt.simple system user tools tool_choice)).tools = none ∧
    (openai_llm.OpenAIRequest.from_prompt config
        (prompt.Prompt.simple system user tools tool_choice)).tool_choice = none ∧
    (openai_llm.OpenAIRequest.from_prompt config
        (prompt.Prompt.simple system user tools tool_choice)).parallel_tool_calls =
      none :=
  ⟨rfl, rfl, rfl⟩

/-- Claim C3, counterexample to the claim as stated: a `Messages` prompt
declaring a non-empty tools list and a tool choice lowers to an
`AnthropicRequest` whose `tools` and `tool_choice` fields are both `None`
— the declared tools are not placed in the vendor "tools" array and the
neutral tool choice is not mapped. -/
theorem C3_counterexample_tools_not_declared :
    (anthropic_llm.AnthropicRequest.from_prompt sampleLLMConfig
        (prompt.Prompt.messages "You are helpful."
          [prompt.PromptMessage.user "user" [prompt.UserContent.text "text" "hi"] none]
          (some [sampleTool])
          (some (prompt.ToolChoice.auto "auto" none)))).map
        (fun r => (r.tools, r.tool_choice)) =
      some (none, none) := rfl

/-- Claim C3 (amended): the Anthropic request lowering discards the
prompt's tool declarations entirely — whenever
`AnthropicRequest::from_prompt` returns a request (for either prompt
variant and any tools/tool-choice), that request has `tools = None` and
`tool_choice = None`. -/
theorem C3_anthropic_lowering_drops_tools (config : llm.LLMConfiguration)
    (p : prompt.Prompt) (req : anthropic_llm.AnthropicRequest)
    (h : anthropic_llm.AnthropicRequest.from_prompt config p = some req) :
    req.tools = none ∧ req.tool_choice = none := by
  cases p with
  | simple system user tools tool_choice =>
    simp only [anthropic_llm.AnthropicRequest.from_prompt, Option.some.injEq] at h
    subst h
    exact ⟨rfl, rfl⟩
  | messages system msgs tools tool_choice =>
    simp only [anthropic_llm.AnthropicRequest.from_prompt] at h
    cases hmm : mapOrPanic anthropic_llm.AnthropicMessage.from_prompt_message msgs with
    | none => rw [hmm] at h; exact absurd h (by simp)
    | some rm =>
      rw [hmm] at h
      have hreq := (Option.some.injEq _ _).mp (by simpa using h)
      subst hreq
      exact ⟨rfl, rfl⟩

/-- Claim C3, witness: the amended theorem applied at a concrete prompt
carrying a tool declaration. -/
theorem C3_anthropic_lowering_drops_tools_witness :
    ∃ req,
      anthropic_llm.AnthropicRequest.from_prompt sampleLLMConfig
          (prompt.Prompt.simple "sys" "hello" (some [sampleTool])
            (some (prompt.ToolChoice.auto "auto" none))) = some req ∧
      req.tools = none ∧ req.tool_choice = none :=
  ⟨_, rfl,
    C3_anthropic_lowering_drops_tools sampleLLMConfig
      (prompt.Prompt.simple "sys" "hello" (some [sampleTool])
        (some (prompt.ToolChoice.auto "auto" none))) _ rfl⟩

def c8msgs : List prompt.PromptMessage :=
  [ prompt.PromptMessage.user "user" [prompt.UserContent.text "text" "hello"] none,
    prompt.PromptMessage.assistant "assistant"
      (some [prompt.AssistantContent.text "text" "hi there"]) none none none ]

/-- Claim C8, counterexample to the claim as stated: a `Messages` prompt
containing an `Assistant` message with no content makes the Anthropic
lowering panic (`content.unwrap()` in
`AnthropicMessage::from_prompt_message`), so no vendor message list is
emitted at all for that prompt. -/
theorem C8_counterexample_assistant_without_content :
    anthropic_llm.AnthropicRequest.from_prompt sampleLLMConfig
        (prompt.Prompt.messages "sys"
          [prompt.PromptMessage.assistant "assistant" none none none none]
          none none) =
      none := rfl

/-- Claim C8 (amended): message order is preserved by both lowerings.
The OpenAI-compatible lowering of `Prompt::Messages` emits one system
entry followed by the prompt messages in order, each converted with the
role-kind-preserving `OpenAIRequestMessage::from_prompt_message`; the
Anthropic lowering, whenever it returns (that is, no assistant message
lacks content), emits exactly one vendor message per prompt message, in
the same relative order. -/
theorem C8_lowerings_preserve_message_order :
    (∀ (config : llm.LLMConfiguration) (system : String)
        (msgs : List prompt.PromptMessage) (tools : Option (List prompt.Tool))
        (tc : Option prompt.ToolChoice),
      (openai_llm.OpenAIRequest.from_prompt config
          (prompt.Prompt.messages system msgs tools tc)).messages =
        openai_llm.OpenAIRequestMessage.system "system" system none ::
          msgs.map openai_llm.OpenAIRequestMessage.from_prompt_message) ∧
    (∀ m : prompt.PromptMessage,
      (openai_llm.OpenAIRequestMessage.from_prompt_message m).roleKind = m.roleKind) ∧
    (∀ (config : llm.LLMConfiguration) (system : String)
        (msgs : List prompt.PromptMessage) (tools : Option (List prompt.Tool))
        (tc : Option prompt.ToolChoice) (req : anthropic_llm.AnthropicRequest),
      anthropic_llm.AnthropicRequest.from_prompt config
          (prompt.Prompt.messages system msgs tools tc) = some req →
        req.messages.length = msgs.length ∧
        ∀ i (h1 : i < msgs.length) (h2 : i < req.messages.length),
          anthropic_llm.AnthropicMessage.from_prompt_message (msgs.get ⟨i, h1⟩) =
            some (req.messages.get ⟨i, h2⟩)) := by
  refine ⟨?_, ?_, ?_⟩
  · intro config system msgs tools tc
    rfl
  · intro m
    cases m <;> rfl
  · intro config system msgs tools tc req h
    simp only [anthropic_llm.AnthropicRequest.from_prompt] at h
    cases hmm : mapOrPanic anthropic_llm.AnthropicMessage.from_prompt_message msgs with
    | none => rw [hmm] at h; exact absurd h (by simp)
    | some rm =>
      rw [hmm] at h
      have hreq := (Option.some.injEq _ _).mp (by simpa using h)
      subst hreq
      obtain ⟨hlen, hidx⟩ :=
        mapOrPanic_spec anthropic_llm.AnthropicMessage.from_prompt_message msgs rm hmm
      exact ⟨hlen, fun i h1 h2 => hidx i h1 h2⟩

/-- Claim C8, witness: the amended theorem applied at a concrete
two-message history for both lowerings. -/
theorem C8_lowerings_preserve_message_order_witness :
    ((openai_llm.OpenAIRequest.from_prompt sampleLLMConfig
        (prompt.Prompt.messages "sys" c8msgs none none)).messages =
      openai_llm.OpenAIRequestMessage.system "system" "sys" none ::
        c8msgs.map openai_llm.OpenAIRequestMessage.from_prompt_message) ∧
    ∃ req,
      anthropic_llm.AnthropicRequest.from_prompt sampleLLMConfig
          (prompt.Prompt.messages "sys" c8msgs none none) = some req ∧
      req.messages.length = c8msgs.length :=
  ⟨C8_lowerings_preserve_message_order.1 sampleLLMConfig "sys" c8msgs none none,
    _, rfl,
    (C8_lowerings_preserve_message_order.2.2 sampleLLMConfig "sys" c8msgs
      none none _ rfl).1⟩

def c2entry : JValue :=
  JValue.obj
    [ ("id", JValue.str "call_1"),
      ("type", JValue.str "function"),
      ("function", JValue.obj
        [ ("name", JValue.str "get_current_weather"),
          ("arguments", JValue.str "\x7b") ]) ]

def c2resp : openai_llm.OpenAIGenerateResponse :=
  { id := none
    choices :=
      [ { finish_reason := "tool_calls"
          index := 0
          message := { content := none, role := "assistant", tool_calls := some [c2entry] } } ]
    created := 0
    model := "gpt-4o-mini"
    system_fingerprint := ""
    object := ""
    usage := { prompt_tokens := 0, completion_tokens := 0, total_tokens := 0 }
    time_info := none }

/-- Claim C2, counterexample to the claim as stated: a tool-call entry with
both `name` and `arguments` present whose `arguments` text does not parse
makes `LLMResultToolCall::from_openai` panic (the `unwrap` on
`serde_json::from_str`, modelled by `none`).  The failure is not returned
to the caller as an error value: the function's return type
(`Option<Vec<LLMResultToolCall>>`) has no error channel at all, the
process panics instead. -/
theorem C2_counterexample_parse_failure_panics :
    llm.LLMResultToolCall.from_openai (some [c2entry]) = none := rfl

/-- Claim C2 (amended): for every tool-call entry whose function `name` and
`arguments` are both present, if the `arguments` string fails to parse as
JSON then the failure is fatal to the whole call — the entry is not
skipped, no partial tool-call list is returned, and the whole
normalization of the vendor response aborts — but fatally via a panic
(modelled by `none`), not via an error value. -/
theorem C2_bad_arguments_fatal_to_whole_call
    (tcs : List JValue) (item : JValue) (nm : JValue) (args : String)
    (hmem : item ∈ tcs)
    (hname : (llm.toolCallFields item).2.2.1 = some nm)
    (hargs : (llm.toolCallFields item).2.2.2 = some (JValue.str args))
    (hparse : serdeFromStrOptValue args = none) :
    llm.LLMResultToolCall.from_openai (some tcs) = none ∧
    ∀ (resp : openai_llm.OpenAIGenerateResponse)
      (choice : openai_llm.OpenAIGenerateResponseChoice),
      resp.choices.head? = some choice →
      choice.message.tool_calls = some tcs →
      llm.LLMResult.from_openai resp = none := by
  have hconv : llm.convertToolCall (llm.toolCallFields item) = none := by
    simp only [llm.convertToolCall, hname, hargs, JValue.asStr, hparse]
    cases nm <;> rfl
  have hmemmap : llm.toolCallFields item ∈ tcs.map llm.toolCallFields :=
    List.mem_map_of_mem llm.toolCallFields hmem
  have hboth : ((llm.toolCallFields item).2.2.1.isSome &&
      (llm.toolCallFields item).2.2.2.isSome) = true := by
    rw [hname, hargs]; rfl
  have hmemfil : llm.toolCallFields item ∈
      (tcs.map llm.toolCallFields).filter (fun o => o.2.2.1.isSome && o.2.2.2.isSome) :=
    List.mem_filter.mpr ⟨hmemmap, hboth⟩
  have hpanic := mapOrPanic_eq_none_of_mem llm.convertToolCall _ _ hmemfil hconv
  have hmain : llm.LLMResultToolCall.from_openai (some tcs) = none := by
    simp [llm.LLMResultToolCall.from_openai, hpanic]
  refine ⟨hmain, ?_⟩
  intro resp choice hhead htc
  simp [llm.LLMResult.from_openai, hhead, htc, hmain]

/-- Claim C2, witness: the amended theorem applied to a concrete entry with
`name = "get_current_weather"` and non-JSON `arguments`, inside a concrete
vendor response. -/
theorem C2_bad_arguments_fatal_to_whole_call_witness :
    llm.LLMResultToolCall.from_openai (some [c2entry]) = none ∧
    llm.LLMResult.from_openai c2resp = none := by
  have h := C2_bad_arguments_fatal_to_whole_call [c2entry] c2entry
    (JValue.str "get_current_weather") "\x7b"
    (List.mem_singleton.mpr rfl) rfl rfl rfl
  exact ⟨h.1, h.2 c2resp _ rfl rfl⟩

/-- Whether a raw vendor tool-call entry carries both a function `name`
and an `arguments` field — the filter condition of
`LLMResultToolCall::from_openai` (`llm.rs` line 81). -/
def llm.hasNameAndArguments (item : JValue) : Bool :=
  (llm.toolCallFields item).2.2.1.isSome && (llm.toolCallFields item).2.2.2.isSome

def c7entry : JValue :=
  JValue.obj
    [ ("function", JValue.obj
        [ ("name", JValue.num 1),
          ("arguments", JValue.str "\x7b\x7d") ]) ]

/-- Claim C7, counterexample to the claim as stated: this entry has both a
function `name` and an `arguments` field, so by the claim the resulting
list should have length 1; but because the name is not a JSON string, the
post-filter `as_str().unwrap()` panics (modelled by `none`) and no list of
any length is returned. -/
theorem C7_counterexample_nonstring_name_panics :
    llm.hasNameAndArguments c7entry = true ∧
    llm.LLMResultToolCall.from_openai (some [c7entry]) = none :=
  ⟨rfl, rfl⟩

/-- Claim C7 (amended): for every optional list of vendor tool-call
entries in which each entry having both `name` and `arguments` is
well-formed (its post-filter conversion succeeds: string name, string
arguments, arguments text parses), every entry lacking `name` or
`arguments` is excluded without any error, every well-formed entry with
both is kept in order, and the result list length equals the number of
entries having both fields.  An absent list converts to `None` without
error. -/
theorem C7_malformed_entries_dropped
    (tcs : List JValue)
    (hwf : ∀ item ∈ tcs, llm.hasNameAndArguments item = true →
      (llm.convertToolCall (llm.toolCallFields item)).isSome) :
    llm.LLMResultToolCall.from_openai none = some none ∧
    ∃ l, llm.LLMResultToolCall.from_openai (some tcs) = some (some l) ∧
      l.length = (tcs.filter llm.hasNameAndArguments).length ∧
      ∀ i (h1 : i < (tcs.filter llm.hasNameAndArguments).length) (h2 : i < l.length),
        llm.convertToolCall
            (llm.toolCallFields ((tcs.filter llm.hasNameAndArguments).get ⟨i, h1⟩)) =
          some (l.get ⟨i, h2⟩) := by
  refine ⟨rfl, ?_⟩
  have hfil : (tcs.map llm.toolCallFields).filter
        (fun o => o.2.2.1.isSome && o.2.2.2.isSome) =
      (tcs.filter llm.hasNameAndArguments).map llm.toolCallFields := by
    rw [filter_map_comm]
    rfl
  have hall : ∀ item ∈ tcs.filter llm.hasNameAndArguments,
      ((fun x => llm.convertToolCall (llm.toolCallFields x)) item).isSome := by
    intro item hitem
    obtain ⟨hmem, hp⟩ := List.mem_filter.mp hitem
    exact hwf item hmem hp
  obtain ⟨l, hl⟩ := mapOrPanic_isSome_of_all
    (fun x => llm.convertToolCall (llm.toolCallFields x))
    (tcs.filter llm.hasNameAndArguments) hall
  obtain ⟨hlen, hidx⟩ := mapOrPanic_spec
    (fun x => llm.convertToolCall (llm.toolCallFields x))
    (tcs.filter llm.hasNameAndArguments) l hl
  refine ⟨l, ?_, hlen, fun i h1 h2 => hidx i h1 h2⟩
  show (mapOrPanic llm.convertToolCall
      ((tcs.map llm.toolCallFields).filter
        (fun o => o.2.2.1.isSome && o.2.2.2.isSome))).map some = some (some l)
  rw [hfil, mapOrPanic_map, hl]
  rfl

def c7good : JValue :=
  JValue.obj
    [ ("id", JValue.str "call_9"),
      ("type", JValue.str "function"),
      ("function", JValue.obj
        [ ("name", JValue.str "get_weather"),
          ("arguments", JValue.str "\x7b\"city\":\"Paris\"\x7d") ]) ]

def c7missing : JValue :=
  JValue.obj [("function", JValue.obj [("name", JValue.str "incomplete")])]

/-- Claim C7, witness: the amended theorem applied to a concrete list with
one well-formed entry and one entry lacking `arguments`; the result has
exactly one element. -/
theorem C7_malformed_entries_dropped_witness :
    llm.LLMResultToolCall.from_openai none = some none ∧
    ∃ l, llm.LLMResultToolCall.from_openai (some [c7good, c7missing]) = some (some l) ∧
      l.length = ([c7good, c7missing].filter llm.hasNameAndArguments).length := by
  have h := C7_malformed_entries_dropped [c7good, c7missing] (by
    intro item hitem hna
    rcases List.mem_cons.mp hitem with rfl | h2
    · rfl
    · rcases List.mem_cons.mp h2 with rfl | h3
      · exact absurd hna (by decide)
      · exact absurd h3 (List.not_mem_nil item))
  obtain ⟨h0, l, h1, h2, _⟩ := h
  exact ⟨h0, l, h1, h2⟩

theorem lookup_none_of_no_key {β : Type} (items : List (String × β)) (key : String)
    (h : ∀ p ∈ items, p.1 ≠ key) : items.lookup key = none := by
  induction items with
  | nil => rfl
  | cons p ps ih =>
    have hp : (key == p.1) = false :=
      beq_eq_false_iff_ne.mpr (Ne.symm (h p (List.mem_cons_self p ps)))
    cases p with
    | mk k v =>
      simp only [List.lookup]
      rw [hp]
      exact ih (fun q hq => h q (List.mem_cons_of_mem _ hq))

/-- Claim C5: on a registry with no entry for a known provider `key`, and
that key's gateway entry configured (so the adapter constructor's
`.get(...).unwrap()` does not panic), `instance(key, cfg1)` constructs
and caches an adapter built from `cfg1`, and every subsequent
`instance(key, cfg2)` returns that very same cached adapter with the
registry unchanged, whatever `cfg2` is — the second call's configuration
is ignored, so the two returned instances are identical and in particular
agree on effective base URL and model.  The effective model comes from
`cfg1.model` for every key.  The effective base URL is `cfg1`'s override
(else the gateway base URL) for anthropic, cerebras, gemini and openai;
for groq it is the gateway base URL unconditionally, because the groq
adapter stores no per-call configuration and its `generate` uses
`self.base_url` with no override (`groq_llm.rs` lines 16-47). -/
theorem C5_instance_caches_first_configuration
    (f : llm_factory.LLMFactory) (key : String)
    (cfg1 : llm.LLMConfiguration) (g : config.GatewayConfig)
    (hknown : key ∈ llm_factory.knownProviderKeys)
    (hfresh : f.registry.get key = none)
    (hg : config.GatewaysConfig.get f.config.config.gateways (key ++ "_gateway") =
      some g) :
    ∃ (l : llm_factory.LLM) (f1 : llm_factory.LLMFactory),
      f.«instance» key cfg1 = some (.ok l, f1) ∧
      (∀ cfg2 : llm.LLMConfiguration,
        f1.«instance» key cfg2 = some (.ok l, f1)) ∧
      l.effectiveModel = some cfg1.model ∧
      l.effectiveBaseUrl =
        (if key = "groq" then g.baseurl else cfg1.base_url.getD g.baseurl) := by
  simp only [llm_factory.knownProviderKeys, List.mem_cons, List.not_mem_nil,
    or_false] at hknown
  rcases hknown with rfl | rfl | rfl | rfl | rfl
  · have hg2 : config.GatewaysConfig.get f.config.config.gateways
        "anthropic_gateway" = some g := hg
    refine ⟨llm_factory.LLM.anthropicLLM { global_config := g, config := cfg1 },
      ⟨f.config, f.registry.register "anthropic"
        (llm_factory.LLM.anthropicLLM { global_config := g, config := cfg1 })⟩,
      ?_, ?_, rfl, ?_⟩
    · simp only [llm_factory.LLMFactory.«instance», hfresh,
        anthropic_llm.AnthropicLLM.new, hg2]
      rfl
    · intro cfg2; rfl
    · rfl
  · have hg2 : config.GatewaysConfig.get f.config.config.gateways
        "cerebras_gateway" = some g := hg
    refine ⟨llm_factory.LLM.cerebrasLLM { global_config := g, config := cfg1 },
      ⟨f.config, f.registry.register "cerebras"
        (llm_factory.LLM.cerebrasLLM { global_config := g, config := cfg1 })⟩,
      ?_, ?_, rfl, ?_⟩
    · simp only [llm_factory.LLMFactory.«instance», hfresh,
        cerebras_llm.CerebrasLLM.new, hg2]
      rfl
    · intro cfg2; rfl
    · rfl
  · have hg2 : config.GatewaysConfig.get f.config.config.gateways
        "gemini_gateway" = some g := hg
    refine ⟨llm_factory.LLM.geminiLLM { global_config := g, config := cfg1 },
      ⟨f.config, f.registry.register "gemini"
        (llm_factory.LLM.geminiLLM { global_config := g, config := cfg1 })⟩,
      ?_, ?_, rfl, ?_⟩
    · simp only [llm_factory.LLMFactory.«instance», hfresh,
        gcp_gemini_llm.GeminiLLM.new, hg2]
      rfl
    · intro cfg2; rfl
    · rfl
  · have hg2 : config.GatewaysConfig.get f.config.config.gateways
        "groq_gateway" = some g := hg
    refine ⟨llm_factory.LLM.groqLLM
        { api_key := g.api_key, base_url := g.baseurl, model := cfg1.model },
      ⟨f.config, f.registry.register "groq"
        (llm_factory.LLM.groqLLM
          { api_key := g.api_key, base_url := g.baseurl, model := cfg1.model })⟩,
      ?_, ?_, rfl, ?_⟩
    · simp only [llm_factory.LLMFactory.«instance», hfresh,
        groq_llm.GroqLLM.new, hg2]
      rfl
    · intro cfg2; rfl
    · rfl
  · have hg2 : config.GatewaysConfig.get f.config.config.gateways
        "openai_gateway" = some g := hg
    refine ⟨llm_factory.LLM.openaiLLM { global_config := g, config := cfg1 },
      ⟨f.config, f.registry.register "openai"
        (llm_factory.LLM.openaiLLM { global_config := g, config := cfg1 })⟩,
      ?_, ?_, rfl, ?_⟩
    · simp only [llm_factory.LLMFactory.«instance», hfresh,
        openai_llm.OpenAILLM.new, hg2]
      rfl
    · intro cfg2; rfl
    · rfl

/-- Claim C5, witness: the theorem applied to a fresh factory over a fully
configured gateway registry, once for the `"openai"` key (per-call
override semantics) and once for the `"groq"` key (gateway-pinned base
URL, model from the first call's configuration). -/
theorem C5_instance_caches_first_configuration_witness :
    (∃ (l : llm_factory.LLM) (f1 : llm_factory.LLMFactory),
      sampleFactory.«instance» "openai" sampleLLMConfig = some (.ok l, f1) ∧
      (∀ cfg2 : llm.LLMConfiguration,
        f1.«instance» "openai" cfg2 = some (.ok l, f1)) ∧
      l.effectiveModel = some sampleLLMConfig.model ∧
      l.effectiveBaseUrl =
        (if "openai" = "groq" then sampleGatewayConfig.baseurl
         else sampleLLMConfig.base_url.getD sampleGatewayConfig.baseurl)) ∧
    (∃ (l : llm_factory.LLM) (f1 : llm_factory.LLMFactory),
      sampleFactory.«instance» "groq" sampleLLMConfig = some (.ok l, f1) ∧
      (∀ cfg2 : llm.LLMConfiguration,
        f1.«instance» "groq" cfg2 = some (.ok l, f1)) ∧
      l.effectiveModel = some sampleLLMConfig.model ∧
      l.effectiveBaseUrl =
        (if "groq" = "groq" then sampleGatewayConfig.baseurl
         else sampleLLMConfig.base_url.getD sampleGatewayConfig.baseurl)) :=
  ⟨C5_instance_caches_first_configuration sampleFactory "openai"
      sampleLLMConfig sampleGatewayConfig (by decide) rfl rfl,
    C5_instance_caches_first_configuration sampleFactory "groq"
      sampleLLMConfig sampleGatewayConfig (by decide) rfl rfl⟩

/-- Claim C6: for a provider key outside the known set, on a factory whose
registry contains only known keys (true of every reachable registry),
`instance` returns the factory error `AgentFactoryError { id: 0, code: 0 }`
— not a panic — and the factory state, registry included, is returned
unchanged: nothing is registered and no entry is modified. -/
theorem C6_unknown_key_error_registry_unchanged
    (f : llm_factory.LLMFactory) (key : String) (cfg : llm.LLMConfiguration)
    (hunknown : key ∉ llm_factory.knownProviderKeys)
    (hreg : ∀ p ∈ f.registry.items, p.1 ∈ llm_factory.knownProviderKeys) :
    f.«instance» key cfg =
      some (.error (error.Error.AgentFactoryError 0 0), f) := by
  have hfresh : f.registry.get key = none := by
    unfold llm_factory.LLMRegistry.get
    refine lookup_none_of_no_key f.registry.items key ?_
    intro p hp heq
    exact hunknown (heq ▸ hreg p hp)
  simp only [llm_factory.LLMFactory.«instance», hfresh]
  split
  all_goals first
  | rfl
  | (exact absurd (by decide) hunknown)

/-- Claim C6, witness: the theorem applied to a fresh factory and the key
`"unknown-vendor"`. -/
theorem C6_unknown_key_error_registry_unchanged_witness :
    sampleFactory.«instance» "unknown-vendor" sampleLLMConfig =
      some (.error (error.Error.AgentFactoryError 0 0), sampleFactory) :=
  C6_unknown_key_error_registry_unchanged sampleFactory "unknown-vendor"
    sampleLLMConfig (by decide)
    (fun p hp => absurd hp (List.not_mem_nil p))

/-- Supporting invariant: `instance` only ever registers known provider
keys, so the registry of every reachable factory state satisfies the
hypothesis used for the unknown-key behaviour. -/
theorem llm_factory.instance_preserves_known_keys
    (f : llm_factory.LLMFactory) (key : String) (cfg : llm.LLMConfiguration)
    (r : Except error.Error llm_factory.LLM) (f1 : llm_factory.LLMFactory)
    (hreg : ∀ p ∈ f.registry.items, p.1 ∈ llm_factory.knownProviderKeys)
    (h : f.«instance» key cfg = some (r, f1)) :
    ∀ p ∈ f1.registry.items, p.1 ∈ llm_factory.knownProviderKeys := by
  unfold llm_factory.LLMFactory.«instance» at h
  split at h
  · simp only [Option.some.injEq, Prod.mk.injEq] at h
    obtain ⟨-, rfl⟩ := h
    exact hreg
  · split at h
    · cases hn : anthropic_llm.AnthropicLLM.new f.config cfg with
      | none => rw [hn] at h; exact absurd h (by simp)
      | some a =>
        rw [hn] at h
        simp only [Option.map, Option.some.injEq, Prod.mk.injEq] at h
        obtain ⟨-, rfl⟩ := h
        intro p hp
        rcases List.mem_cons.mp hp with rfl | hp2
        · show "anthropic" ∈ llm_factory.knownProviderKeys
          decide
        · exact hreg p hp2
    · cases hn : cerebras_llm.CerebrasLLM.new f.config cfg with
      | none => rw [hn] at h; exact absurd h (by simp)
      | some a =>
        rw [hn] at h
        simp only [Option.map, Option.some.injEq, Prod.mk.injEq] at h
        obtain ⟨-, rfl⟩ := h
        intro p hp
        rcases List.mem_cons.mp hp with rfl | hp2
        · show "cerebras" ∈ llm_factory.knownProviderKeys
          decide
        · exact hreg p hp2
    · cases hn : gcp_gemini_llm.GeminiLLM.new f.config cfg with
      | none => rw [hn] at h; exact absurd h (by simp)
      | some a =>
        rw [hn] at h
        simp only [Option.map, Option.some.injEq, Prod.mk.injEq] at h
        obtain ⟨-, rfl⟩ := h
        intro p hp
        rcases List.mem_cons.mp hp with rfl | hp2
        · show "gemini" ∈ llm_factory.knownProviderKeys
          decide
        · exact hreg p hp2
    · cases hn : groq_llm.GroqLLM.new f.config cfg.model with
      | none => rw [hn] at h; exact absurd h (by simp)
      | some a =>
        rw [hn] at h
        simp only [Option.map, Option.some.injEq, Prod.mk.injEq] at h
        obtain ⟨-, rfl⟩ := h
        intro p hp
        rcases List.mem_cons.mp hp with rfl | hp2
        · show "groq" ∈ llm_factory.knownProviderKeys
          decide
        · exact hreg p hp2
    · cases hn : openai_llm.OpenAILLM.new f.config cfg with
      | none => rw [hn] at h; exact absurd h (by simp)
      | some a =>
        rw [hn] at h
        simp only [Option.map, Option.some.injEq, Prod.mk.injEq] at h
        obtain ⟨-, rfl⟩ := h
        intro p hp
        rcases List.mem_cons.mp hp with rfl | hp2
        · show "openai" ∈ llm_factory.knownProviderKeys
          decide
        · exact hreg p hp2
    · simp only [Option.some.injEq, Prod.mk.injEq] at h
      obtain ⟨-, rfl⟩ := h
      exact hreg
